import Mathlib

/-!
Verification of the DDoS-protection reverse proxy: a shallow embedding of the
detection/mitigation pipeline (client-IP resolver, sliding-window store,
detection engine, mitigation controller, model scoring, prediction caches,
request-handler decision) together with theorems checking the specification's
claims against it.

Conventions of the embedding:
* Python floats (timestamps, rates, scores) are modelled as `ℚ`.
* Python dicts are modelled as association lists with insertion-order
  semantics (`lookupA`/`setA`/`removeA`).
* Fallible code is modelled with `Option`/`Except`.
* Only IPv4 addresses are modelled in the resolver; the float formatting of
  human-readable `detail` strings is not modelled (set to `none`).
-/

namespace DDoS

/-! ## Association-list helpers (Python `dict` semantics) -/

def lookupA {α : Type} : List (String × α) → String → Option α
  | [], _ => none
  | (k, v) :: r, key => if k = key then some v else lookupA r key

def lookupD {α : Type} (l : List (String × α)) (key : String) (d : α) : α :=
  (lookupA l key).getD d

/-- Update an existing key in place, or append a new binding (dict insertion
order). -/
def setA {α : Type} : List (String × α) → String → α → List (String × α)
  | [], k, v => [(k, v)]
  | (k', v') :: r, k, v =>
    if k' = k then (k, v) :: r else (k', v') :: setA r k v

def removeA {α : Type} : List (String × α) → String → List (String × α)
  | [], _ => []
  | (k', v') :: r, k => if k' = k then r else (k', v') :: removeA r k

/-! ## Schemas (src/app/schemas.py) -/

inductive MitigationAction
  | allow
  | block
  | rate_limit
  | challenge
  deriving DecidableEq, Repr

structure TrafficSample where
  client_ip : String
  method : String
  path : String
  headers : List (String × String)
  content_length : ℤ
  deriving Repr

structure FeatureVector where
  ip_request_rate : ℚ
  global_request_rate : ℚ
  unique_ip_count : ℤ
  burst_score : ℚ
  deriving Repr

structure DetectionVerdict where
  action : MitigationAction
  severity : String
  reason : String
  detail : Option String
  confidence : Option ℚ
  deriving DecidableEq, Repr

/-- `MitigationResult` of src/app/schemas.py.  The pydantic model has exactly
the fields `allowed`, `rule_matched`, `duration_seconds`; the `verdict=` extra
keyword passed by the controller is silently dropped by pydantic. -/
structure MitigationResult where
  allowed : Bool
  rule_matched : Option String
  duration_seconds : Option ℤ
  deriving DecidableEq, Repr

/-! ## Mitigation controller (src/app/services/mitigation.py) -/

structure MitigationController where
  /-- `request_rate_limit : int` -/
  request_rate_limit : ℤ
  /-- `sliding_window_seconds : int` (held as `ℚ` so that it combines with
  `time.time()` timestamps). -/
  sliding_window_seconds : ℚ
  /-- `rate_limited_ips : Dict[str, float]` — per-IP `last_allowed_time`. -/
  rate_limited_ips : List (String × ℚ)
  deriving Repr

namespace MitigationController

/-- `_apply_rate_limit`: allowed iff the stored stamp (default `0`) is
strictly older than `now - sliding_window_seconds`; on success the stamp is
set to `now`. Returns `(allowed, updated controller)`. -/
def applyRateLimit (c : MitigationController) (ip : String) (now : ℚ) :
    Bool × MitigationController :=
  let window_start := now - c.sliding_window_seconds
  let last_allowed := lookupD c.rate_limited_ips ip 0
  if last_allowed < window_start then
    (true, { c with rate_limited_ips := setA c.rate_limited_ips ip now })
  else
    (false, c)

/-- `MitigationController.apply`: RATE_LIMIT consults the per-IP window,
BLOCK denies, everything else (ALLOW **and CHALLENGE**) allows.  The returned
`MitigationResult` leaves `rule_matched`/`duration_seconds` at their `None`
defaults. -/
def apply (c : MitigationController) (ip : String) (v : DetectionVerdict)
    (now : ℚ) : MitigationController × MitigationResult :=
  match v.action with
  | .rate_limit =>
    let (allowed, c') := applyRateLimit c ip now
    (c', ⟨allowed, none, none⟩)
  | .block => (c, ⟨false, none, none⟩)
  | _ => (c, ⟨true, none, none⟩)

/-- `get_remaining_requests`: full limit when the stamp fell out of the
window, otherwise `0`. -/
def get_remaining_requests (c : MitigationController) (ip : String)
    (now : ℚ) : ℤ :=
  let window_start := now - c.sliding_window_seconds
  let last_allowed := lookupD c.rate_limited_ips ip 0
  if last_allowed < window_start then c.request_rate_limit else 0

end MitigationController

/-! ## Sliding-window store (src/app/services/storage.py) -/

structure SlidingWindowSnapshot where
  ip_request_rate : ℚ
  global_request_rate : ℚ
  unique_ip_count : ℕ
  ip_event_count : ℕ
  global_event_count : ℕ
  deriving DecidableEq, Repr

structure SlidingWindowStore where
  window_seconds : ℚ
  /-- `_per_ip : Dict[str, Deque[float]]` — front of the list is the front of
  the deque. -/
  per_ip : List (String × List ℚ)
  /-- `_global : Deque[float]` -/
  glob : List ℚ
  /-- `_active_ips : Dict[str, float]` -/
  active_ips : List (String × ℚ)
  deriving Repr

namespace SlidingWindowStore

def empty (w : ℚ) : SlidingWindowStore := ⟨w, [], [], []⟩

/-- `_record_event`: append to the IP deque and the global deque, stamp the
active-IP map. -/
def recordEvent (s : SlidingWindowStore) (ip : String) (ts : ℚ) :
    SlidingWindowStore :=
  { s with
    per_ip := setA s.per_ip ip (lookupD s.per_ip ip [] ++ [ts])
    active_ips := setA s.active_ips ip ts
    glob := s.glob ++ [ts] }

/-- The per-IP half of `_prune_all`: walk the dict in order, popping stale
heads; a drained queue is removed from the per-IP dict and the active map,
otherwise the active stamp becomes the queue's last element. -/
def prunePerIp (ws : ℚ) :
    List (String × List ℚ) → List (String × ℚ) →
      List (String × List ℚ) × List (String × ℚ)
  | [], act => ([], act)
  | (k, q) :: rest, act =>
    let q' := q.dropWhile (fun t => decide (t < ws))
    match q'.getLast? with
    | some lastT =>
      let (ps, act') := prunePerIp ws rest (setA act k lastT)
      ((k, q') :: ps, act')
    | none => prunePerIp ws rest (removeA act k)

/-- `_prune_all`: prune the global deque, then every per-IP deque, then sweep
stale active-IP stamps.  The retention comparison is `t < now - W` (strict),
so an event with `t = now - W` survives. -/
def pruneAll (s : SlidingWindowStore) (now : ℚ) : SlidingWindowStore :=
  let ws := now - s.window_seconds
  let glob' := s.glob.dropWhile (fun t => decide (t < ws))
  let pa := prunePerIp ws s.per_ip s.active_ips
  let act2 := pa.2.filter (fun kv => !decide (kv.2 < ws))
  ⟨s.window_seconds, pa.1, glob', act2⟩

/-- `_snapshot`. -/
def snapshotFor (s : SlidingWindowStore) (ip : String) :
    SlidingWindowSnapshot :=
  let q := lookupD s.per_ip ip []
  ⟨(q.length : ℚ) / s.window_seconds,
    (s.glob.length : ℚ) / s.window_seconds,
    s.active_ips.length, q.length, s.glob.length⟩

/-- `add_event` with an explicit timestamp: record, prune at that timestamp,
snapshot. -/
def add_event (s : SlidingWindowStore) (ip : String) (ts : ℚ) :
    SlidingWindowStore × SlidingWindowSnapshot :=
  let s1 := recordEvent s ip ts
  let s2 := pruneAll s1 ts
  (s2, snapshotFor s2 ip)

/-- `peek` with an explicit timestamp: prune at `now`, snapshot. -/
def peek (s : SlidingWindowStore) (ip : String) (now : ℚ) :
    SlidingWindowStore × SlidingWindowSnapshot :=
  let s2 := pruneAll s now
  (s2, snapshotFor s2 ip)

/-- Fold `add_event` over a list of timestamps. -/
def addEvents (s : SlidingWindowStore) (ip : String) (l : List ℚ) :
    SlidingWindowStore :=
  l.foldl (fun st t => (add_event st ip t).1) s

/-- The canonical store shape reached by feeding a single IP's events into an
initially empty store (specification device for the round-trip proof). -/
def canon (w : ℚ) (ip : String) (q : List ℚ) : SlidingWindowStore :=
  { window_seconds := w
    per_ip := if q.isEmpty then [] else [(ip, q)]
    glob := q
    active_ips := if q.isEmpty then [] else [(ip, q.getLast?.getD 0)] }

end SlidingWindowStore

/-! ## Character/string helpers for the detector and the resolver -/

/-- `str.lower()` (ASCII). -/
def lowerStr (s : String) : String := String.mk (s.data.map Char.toLower)

def startsWithL : List Char → List Char → Bool
  | [], _ => true
  | _ :: _, [] => false
  | p :: ps, c :: cs => (p == c) && startsWithL ps cs

/-- Python's `pat in s` substring test. -/
def hasSubstr (pat : List Char) : List Char → Bool
  | [] => pat.isEmpty
  | c :: cs => startsWithL pat (c :: cs) || hasSubstr pat cs

/-! ## Model scoring (src/app/services/ml_model.py) -/

structure SensitivityThresholds where
  confidence_threshold : ℚ
  risk_score_threshold : ℚ
  burst_multiplier : ℚ
  deriving DecidableEq, Repr

/-- `SENSITIVITY_THRESHOLDS`; unknown tags raise `KeyError` → `none`. -/
def SENSITIVITY_THRESHOLDS (level : String) : Option SensitivityThresholds :=
  if level = "low" then some ⟨85/100, 85, 15/10⟩
  else if level = "medium" then some ⟨75/100, 75, 1⟩
  else if level = "high" then some ⟨65/100, 65, 75/100⟩
  else none

structure PredictionOutput where
  is_benign : Bool
  confidence : ℚ
  risk_score : ℚ
  sensitivity_level : String
  deriving DecidableEq, Repr

/-- The per-row scoring of `DDoSDetectionModel.predict`:
`probabilities[i] = (P(class 0 = malicious), P(class 1 = benign))`,
`confidence = max(probabilities[i])`,
`risk_score = (1 - probabilities[i][1]) * 100`, and
`is_attack = confidence >= τ_conf ∧ risk_score >= τ_risk`,
`is_benign = not is_attack`. -/
def predictScore (pBenign : ℚ) (th : SensitivityThresholds) (level : String) :
    PredictionOutput :=
  let confidence := max (1 - pBenign) pBenign
  let risk_score := (1 - pBenign) * 100
  let is_attack :=
    decide (confidence ≥ th.confidence_threshold) &&
    decide (risk_score ≥ th.risk_score_threshold)
  ⟨!is_attack, confidence, risk_score, level⟩

/-- `DDoSDetectionModel.predict` for a single row, parameterised by the
benign-class probability the random forest reports. -/
def modelPredict (pBenign : ℚ) (level : String) : Option PredictionOutput :=
  (SENSITIVITY_THRESHOLDS level).map (fun th => predictScore pBenign th level)

/-! ## Detection engine (src/app/services/detector.py, `evaluate`) -/

/-- The result dict `DDoSDetectionModel.predict` hands to `evaluate`'s ML
branch (only the keys `evaluate` reads). -/
structure MLResult where
  is_benign : Bool
  risk_score : ℚ
  confidence : ℚ
  deriving DecidableEq, Repr

structure DetectionEngine where
  blocklist_ips : List String
  suspicious_uas : List String := ["masscan", "sqlmap", "wget"]
  burst_threshold : ℚ := 6
  ip_rate_threshold : ℚ := 5
  global_rate_threshold : ℚ := 400
  deriving Repr

namespace DetectionEngine

def baselineVerdict : DetectionVerdict := ⟨.allow, "low", "baseline", none, none⟩

/-- `headers_lower.get("user-agent", "").lower()` — keys folded to lowercase
(later duplicates win), missing header defaults to `""`. -/
def userAgentOf (headers : List (String × String)) : String :=
  lowerStr ((headers.reverse.find? (fun kv => lowerStr kv.1 = "user-agent")
    |>.map (·.2)).getD "")

/-- `DetectionEngine.evaluate`.  `ml` is the outcome of the guarded
`self.ml_model.predict` call: `none` when no model is loaded, `.error` when
the call raises (the exception is swallowed), `.ok` when it returns.
Float-formatted `detail` strings of the heuristic branches are not
modelled. -/
def evaluate (e : DetectionEngine) (sample : TrafficSample)
    (features : FeatureVector) (ml : Option (Except String MLResult)) :
    DetectionVerdict :=
  if sample.client_ip ∈ e.blocklist_ips then
    ⟨.block, "critical", "ip_blocklisted",
      some ("Client IP " ++ sample.client_ip ++ " present in blocklist"), none⟩
  else
    let ua := userAgentOf sample.headers
    if e.suspicious_uas.any (fun p => hasSubstr p.data ua.data) then
      ⟨.challenge, "high", "suspicious_user_agent",
        some ("User-Agent: " ++ ua), none⟩
    else if features.ip_request_rate ≥ e.ip_rate_threshold ∧
        features.burst_score ≥ e.burst_threshold then
      ⟨.rate_limit, "high", "ip_rate_exceeded", none, none⟩
    else if features.global_request_rate ≥ e.global_rate_threshold then
      ⟨.rate_limit, "medium", "global_rate_spike", none, none⟩
    else
      match ml with
      | some (.ok r) =>
        if (!r.is_benign) && decide (r.confidence > 8/10) then
          ⟨.block, if r.risk_score ≥ 80 then "high" else "medium",
            "ml_detection", none, none⟩
        else baselineVerdict
      | _ => baselineVerdict

end DetectionEngine

/-! ## Prediction caches (src/app/services/model_cache.py and
src/app/services/prediction_service.py) -/

/-- `ModelCache._generate_key`: `f"{feature_str}:{sensitivity_level}"`.  The
sorted `"k:v"` join of the feature dict is abstracted as the opaque string
`featStr`. -/
def genKey (featStr sens : String) : String := featStr ++ ":" ++ sens

structure CacheEntry where
  timestamp : ℚ
  prediction : ℕ
  /-- provenance (ghost): the sensitivity tag the entry was stored under. -/
  sens_stored : String
  /-- provenance (ghost): the feature string the entry was stored under. -/
  feat_stored : String
  deriving DecidableEq, Repr

structure ModelCache where
  max_size : ℕ
  ttl : ℚ
  cache : List (String × CacheEntry)
  deriving Repr

namespace ModelCache

/-- `ModelCache.get` with an explicit clock: serve only entries strictly
younger than the TTL; expired entries are deleted. -/
def get (c : ModelCache) (featStr sens : String) (now : ℚ) :
    Option ℕ × ModelCache :=
  let key := genKey featStr sens
  match lookupA c.cache key with
  | some e =>
    if now - e.timestamp < c.ttl then (some e.prediction, c)
    else (none, { c with cache := removeA c.cache key })
  | none => (none, c)

def oldestKeyAux (best : String × ℚ) : List (String × CacheEntry) → String
  | [] => best.1
  | (k, e) :: r =>
    if e.timestamp < best.2 then oldestKeyAux (k, e.timestamp) r
    else oldestKeyAux best r

/-- `ModelCache.put`: evict the entry with the smallest timestamp when full,
then store under `genKey`. -/
def put (c : ModelCache) (featStr sens : String) (pred : ℕ) (now : ℚ) :
    ModelCache :=
  let base :=
    match c.cache with
    | [] => c.cache
    | (k0, e0) :: rest =>
      if c.cache.length ≥ c.max_size then
        removeA c.cache (oldestKeyAux (k0, e0.timestamp) rest)
      else c.cache
  { c with cache := setA base (genKey featStr sens) ⟨now, pred, sens, featStr⟩ }

/-- Every stored key is the `genKey` of its entry's provenance. -/
def WF (c : ModelCache) : Prop :=
  ∀ ke ∈ c.cache, ke.1 = genKey ke.2.feat_stored ke.2.sens_stored

end ModelCache

def sensitivityLevels : List String := ["low", "medium", "high"]

/-- The memoisation layer of `PredictionService._cached_predict`
(`functools.lru_cache` keyed by `(feature_hash, sensitivity_level)`): a
stored result is served on every later call with the same key, with **no**
TTL check.  The second component of the payload records (ghost) when the
entry was computed. -/
def lruCachedPredict (store : List ((String × String) × ℕ × ℚ))
    (featureHash sens : String) : Option (ℕ × ℚ) :=
  (store.find? (fun kv => kv.1.1 = featureHash ∧ kv.1.2 = sens)).map (·.2)

/-! ## Middleware prediction fallback
(src/app/middleware/ddos_protection.py, `dispatch`) -/

def neutralPrediction : MLResult := ⟨true, 0, 1⟩

/-- The `try/except` around `prediction_service.predict` in `dispatch`:
on success the prediction is used as-is, on failure the neutral prediction is
substituted and only a warning is logged — the error counter state
(`PerformanceMonitor.num_errors`) is left untouched. -/
def middlewarePredictionStep (num_errors : ℕ)
    (raw : Except String MLResult) : MLResult × ℕ :=
  match raw with
  | .ok p => (p, num_errors)
  | .error _ => (neutralPrediction, num_errors)

/-! ## Client-IP resolver (src/app/utils/ip.py, IPv4 fragment) -/

/-- Split a character list on a separator character; Python
`"".split(c) = [""]` semantics. -/
def splitCharL (sep : Char) : List Char → List (List Char)
  | [] => [[]]
  | c :: rest =>
    let r := splitCharL sep rest
    if c == sep then [] :: r
    else
      match r with
      | h :: t => (c :: h) :: t
      | [] => [[c]]

/-- Python `str.strip()`. -/
def trimChars (l : List Char) : List Char :=
  ((l.dropWhile Char.isWhitespace).reverse.dropWhile Char.isWhitespace).reverse

/-- One dotted-quad component as `ipaddress` accepts it: 1–3 digits, no
leading zero, value ≤ 255. -/
def octetVal (cs : List Char) : Option ℕ :=
  if cs = [] then none
  else if !cs.all Char.isDigit then none
  else if cs.length > 3 then none
  else if cs.length > 1 && (cs.headD '0' == '0') then none
  else
    let v := cs.foldl (fun n c => n * 10 + (c.toNat - 48)) 0
    if v ≤ 255 then some v else none

/-- `ipaddress.ip_address` for IPv4 dotted quads, as a 32-bit value. -/
def parseIPv4 (l : List Char) : Option ℕ :=
  match splitCharL '.' l with
  | [a, b, c, d] =>
    match octetVal a, octetVal b, octetVal c, octetVal d with
    | some x, some y, some z, some w => some (((x * 256 + y) * 256 + z) * 256 + w)
    | _, _, _, _ => none
  | _ => none

def digitChar (d : ℕ) : Char := Char.ofNat (48 + d)

def renderOctet (n : ℕ) : List Char :=
  if n < 10 then [digitChar n]
  else if n < 100 then [digitChar (n / 10), digitChar (n % 10)]
  else [digitChar (n / 100), digitChar (n / 10 % 10), digitChar (n % 10)]

def renderIPv4 (n : ℕ) : String :=
  String.mk (renderOctet (n / 16777216 % 256) ++ '.' ::
    (renderOctet (n / 65536 % 256) ++ '.' ::
      (renderOctet (n / 256 % 256) ++ '.' :: renderOctet (n % 256))))

/-- `normalize_ip`: parse, reject on failure, return the compressed form. -/
def normalize_ip (s : String) : Option String :=
  (parseIPv4 s.data).map renderIPv4

/-- `ipaddress.ip_network` (strict): base address plus prefix length, host
bits required to be zero; a bare address gets prefix 32. -/
def parseCIDR (s : String) : Option (ℕ × ℕ) :=
  match splitCharL '/' s.data with
  | [ipcs, pcs] =>
    match parseIPv4 ipcs, octetVal pcs with
    | some addr, some p =>
      if p ≤ 32 ∧ addr % 2 ^ (32 - p) = 0 then some (addr, p) else none
    | _, _ => none
  | [ipcs] => (parseIPv4 ipcs).map (fun addr => (addr, 32))
  | _ => none

def cidrContains (addr : ℕ) (net : ℕ × ℕ) : Bool :=
  addr / 2 ^ (32 - net.2) == net.1 / 2 ^ (32 - net.2)

/-- The lazy `any(...)` of `is_ip_in_cidr_list`: a malformed CIDR raises
`ValueError`, which the surrounding `except` turns into `False` for the whole
call — unless an earlier CIDR already matched. -/
def anyCidr (addr : ℕ) : List String → Bool
  | [] => false
  | c :: rest =>
    match parseCIDR c with
    | none => false
    | some net => if cidrContains addr net then true else anyCidr addr rest

def is_ip_in_cidr_list (ip : String) (cidrs : List String) : Bool :=
  match parseIPv4 ip.data with
  | none => false
  | some addr => anyCidr addr cidrs

/-- Scan predicate of the right-to-left loop in `extract_client_ip`:
the entry parses and is not a trusted proxy. -/
def untrustedValid (trusted : List String) (s : String) : Bool :=
  match normalize_ip s with
  | some n => !is_ip_in_cidr_list n trusted
  | none => false

/-- The forwarded chain: split the header on commas, strip each entry,
append the normalized peer. -/
def xffChain (peerN : String) (xff : String) : List String :=
  (splitCharL ',' xff.data).map (fun cs => String.mk (trimChars cs)) ++ [peerN]

/-- `extract_client_ip` (with the peer address and header already pulled out
of the request object).  `xff = none` models a missing header; an empty
header string is falsy in Python and also falls back to the peer. -/
def extract_client_ip (peer : String) (xff : Option String)
    (trusted : List String) (honor : Bool) : Option String :=
  match normalize_ip peer with
  | none => none
  | some peerN =>
    if !honor || !is_ip_in_cidr_list peerN trusted then some peerN
    else
      match xff with
      | none => some peerN
      | some x =>
        if x = "" then some peerN
        else
          let ips := xffChain peerN x
          match ips.reverse.find? (untrustedValid trusted) with
          | some s => normalize_ip s
          | none =>
            match ips with
            | s0 :: _ => normalize_ip s0
            | [] => some peerN

/-! ## Request-handler decision (src/app/main.py, `proxy_request`) -/

inductive ProxyOutcome
  | forwarded
  | denied (status : ℕ) (detail : String)
  deriving DecidableEq, Repr

/-- The branch of `proxy_request` that runs after mitigation: a denied
outcome is mapped to a JSON error response, an allowed one reaches
`http_client.forward`. -/
def proxyDecision (verdict : DetectionVerdict) (mit : MitigationResult) :
    ProxyOutcome :=
  if mit.allowed then .forwarded
  else
    match verdict.action with
    | .rate_limit => .denied 429 "Rate limit applied"
    | .block => .denied 403 "Access blocked"
    | .challenge => .denied 403 "Challenge required"
    | .allow => .denied 403 "Request denied"

/-! ## Generic lemmas about the helpers -/

theorem lookupA_setA_self {α : Type} (l : List (String × α)) (k : String)
    (v : α) : lookupA (setA l k v) k = some v := by
  induction l with
  | nil => simp [setA, lookupA]
  | cons kv r ih =>
    by_cases h : kv.1 = k
    · simp [setA, h, lookupA]
    · simp [setA, h, lookupA, ih]

theorem lookupA_mem {α : Type} {l : List (String × α)} {k : String} {v : α}
    (h : lookupA l k = some v) : (k, v) ∈ l := by
  induction l with
  | nil => simp [lookupA] at h
  | cons kv r ih =>
    obtain ⟨a, b⟩ := kv
    by_cases hk : a = k
    · simp only [lookupA, if_pos hk] at h
      injection h with h
      subst hk
      subst h
      exact List.mem_cons_self _ _
    · simp only [lookupA, if_neg hk] at h
      exact List.mem_cons_of_mem _ (ih h)

theorem dropWhile_eq_self_of_all {α : Type} {p : α → Bool} {l : List α}
    (h : ∀ a ∈ l, p a = false) : l.dropWhile p = l := by
  cases l with
  | nil => rfl
  | cons a r => simp [List.dropWhile_cons, h a (List.mem_cons_self a r)]

theorem find?_append_of_none {α : Type} {p : α → Bool} {l₁ l₂ : List α}
    (h : ∀ a ∈ l₁, p a = false) : (l₁ ++ l₂).find? p = l₂.find? p := by
  induction l₁ with
  | nil => rfl
  | cons a r ih =>
    simp only [List.cons_append, List.find?_cons,
      h a (List.mem_cons_self a r)]
    exact ih (fun b hb => h b (List.mem_cons_of_mem a hb))

/-! ## C1 -/

/-- C1: the claim says a CHALLENGE verdict yields `allowed = false` and no
upstream forward.  In the code `MitigationController.apply` only denies for
RATE_LIMIT/BLOCK; CHALLENGE falls into the `else` branch and is **allowed**,
so the handler forwards upstream (the handler's own `CHALLENGE → 403` branch
is unreachable).  This theorem evaluates the code at the failing input. -/
theorem C1_challenge_is_forwarded_upstream :
    ((MitigationController.apply ⟨5, 60, []⟩ "1.2.3.4"
        ⟨.challenge, "high", "suspicious_user_agent", none, none⟩ 1000).2).allowed
      = true ∧
    proxyDecision ⟨.challenge, "high", "suspicious_user_agent", none, none⟩
        ((MitigationController.apply ⟨5, 60, []⟩ "1.2.3.4"
          ⟨.challenge, "high", "suspicious_user_agent", none, none⟩ 1000).2)
      = .forwarded := by
  exact ⟨rfl, rfl⟩

/-! ## C2 -/

/-- C2: a blocklisted client IP always gets the
`BLOCK/critical/ip_blocklisted` verdict regardless of headers, features or
model output; mitigation denies it, and the handler answers
`403 {"detail": "Access blocked"}` without reaching the upstream forward. -/
theorem C2_blocklisted_ip_blocked (e : DetectionEngine) (sample : TrafficSample)
    (features : FeatureVector) (ml : Option (Except String MLResult))
    (c : MitigationController) (now : ℚ)
    (h : sample.client_ip ∈ e.blocklist_ips) :
    e.evaluate sample features ml =
      ⟨.block, "critical", "ip_blocklisted",
        some ("Client IP " ++ sample.client_ip ++ " present in blocklist"),
        none⟩ ∧
    (c.apply sample.client_ip (e.evaluate sample features ml) now).2.allowed
      = false ∧
    proxyDecision (e.evaluate sample features ml)
        (c.apply sample.client_ip (e.evaluate sample features ml) now).2 =
      .denied 403 "Access blocked" ∧
    proxyDecision (e.evaluate sample features ml)
        (c.apply sample.client_ip (e.evaluate sample features ml) now).2 ≠
      .forwarded := by
  have hv : e.evaluate sample features ml =
      ⟨.block, "critical", "ip_blocklisted",
        some ("Client IP " ++ sample.client_ip ++ " present in blocklist"),
        none⟩ := by
    simp [DetectionEngine.evaluate, h]
  refine ⟨hv, ?_, ?_, ?_⟩ <;> rw [hv] <;> simp [MitigationController.apply, proxyDecision]

/-- C2 witness: the spec's concrete scenario (`blocklist_ips = {"1.2.3.4"}`,
request from `1.2.3.4`). -/
theorem C2_blocklisted_ip_blocked_witness :
    ("1.2.3.4" : String) ∈ ["1.2.3.4"] ∧
    (DetectionEngine.evaluate ⟨["1.2.3.4"], ["masscan", "sqlmap", "wget"], 6, 5, 400⟩
        ⟨"1.2.3.4", "GET", "/x", [], 0⟩ ⟨0, 0, 1, 0⟩ none =
      ⟨.block, "critical", "ip_blocklisted",
        some ("Client IP " ++ "1.2.3.4" ++ " present in blocklist"), none⟩ ∧
      (MitigationController.apply ⟨5, 60, []⟩ "1.2.3.4"
          (DetectionEngine.evaluate ⟨["1.2.3.4"], ["masscan", "sqlmap", "wget"], 6, 5, 400⟩
            ⟨"1.2.3.4", "GET", "/x", [], 0⟩ ⟨0, 0, 1, 0⟩ none) 1000).2.allowed = false ∧
      proxyDecision
          (DetectionEngine.evaluate ⟨["1.2.3.4"], ["masscan", "sqlmap", "wget"], 6, 5, 400⟩
            ⟨"1.2.3.4", "GET", "/x", [], 0⟩ ⟨0, 0, 1, 0⟩ none)
          (MitigationController.apply ⟨5, 60, []⟩ "1.2.3.4"
            (DetectionEngine.evaluate ⟨["1.2.3.4"], ["masscan", "sqlmap", "wget"], 6, 5, 400⟩
              ⟨"1.2.3.4", "GET", "/x", [], 0⟩ ⟨0, 0, 1, 0⟩ none) 1000).2 =
        .denied 403 "Access blocked" ∧
      proxyDecision
          (DetectionEngine.evaluate ⟨["1.2.3.4"], ["masscan", "sqlmap", "wget"], 6, 5, 400⟩
            ⟨"1.2.3.4", "GET", "/x", [], 0⟩ ⟨0, 0, 1, 0⟩ none)
          (MitigationController.apply ⟨5, 60, []⟩ "1.2.3.4"
            (DetectionEngine.evaluate ⟨["1.2.3.4"], ["masscan", "sqlmap", "wget"], 6, 5, 400⟩
              ⟨"1.2.3.4", "GET", "/x", [], 0⟩ ⟨0, 0, 1, 0⟩ none) 1000).2 ≠
        .forwarded) :=
  ⟨by decide,
    C2_blocklisted_ip_blocked ⟨["1.2.3.4"], ["masscan", "sqlmap", "wget"], 6, 5, 400⟩
      ⟨"1.2.3.4", "GET", "/x", [], 0⟩ ⟨0, 0, 1, 0⟩ none ⟨5, 60, []⟩ 1000 (by decide)⟩

/-! ## C7 -/

/-- C7 counterexample: the claim says a denied RATE_LIMIT outcome reports
`retry_after = W_rl - (now - last_allowed_time)` (here `60 - 2 = 58`).  The
`MitigationResult` the controller builds has no retry-after at all: with
`last_allowed = 100`, `W = 60`, `now = 102` the request is denied but both
optional fields stay `none`. -/
theorem C7_no_retry_after_counterexample :
    (MitigationController.apply ⟨1, 60, [("9.9.9.9", 100)]⟩ "9.9.9.9"
        ⟨.rate_limit, "high", "ip_rate_exceeded", none, none⟩ 102).2.allowed
      = false ∧
    (MitigationController.apply ⟨1, 60, [("9.9.9.9", 100)]⟩ "9.9.9.9"
        ⟨.rate_limit, "high", "ip_rate_exceeded", none, none⟩ 102).2.duration_seconds
      ≠ some 58 ∧
    (MitigationController.apply ⟨1, 60, [("9.9.9.9", 100)]⟩ "9.9.9.9"
        ⟨.rate_limit, "high", "ip_rate_exceeded", none, none⟩ 102).2
      = ⟨false, none, none⟩ := by
  have hd : ((102 : ℚ) - 60 ≤ 100) := by norm_num
  have happ : (MitigationController.apply ⟨1, 60, [("9.9.9.9", 100)]⟩ "9.9.9.9"
      ⟨.rate_limit, "high", "ip_rate_exceeded", none, none⟩ 102).2
      = ⟨false, none, none⟩ := by
    simp [MitigationController.apply, MitigationController.applyRateLimit,
      lookupD, lookupA, not_lt.mpr hd]
  exact ⟨by rw [happ], by rw [happ]; simp, happ⟩

/-- C7 (amended): under a RATE_LIMIT verdict a request is allowed iff the
stored stamp is strictly older than `now - W_rl` (so the first request of a
window is allowed and stamps `last_allowed_time ← now`, and later requests
with `now - last_allowed_time ≤ W_rl` are denied), but the outcome reports no
retry-after: `rule_matched` and `duration_seconds` are always `none`. -/
theorem C7_rate_limit_window (c : MitigationController) (ip : String)
    (v : DetectionVerdict) (now : ℚ) (hv : v.action = .rate_limit) :
    ((c.apply ip v now).2.allowed = true ↔
      lookupD c.rate_limited_ips ip 0 < now - c.sliding_window_seconds) ∧
    ((c.apply ip v now).2.allowed = true →
      (c.apply ip v now).1.rate_limited_ips = setA c.rate_limited_ips ip now) ∧
    ((c.apply ip v now).2.allowed = false → (c.apply ip v now).1 = c) ∧
    (c.apply ip v now).2.rule_matched = none ∧
    (c.apply ip v now).2.duration_seconds = none := by
  by_cases h : lookupD c.rate_limited_ips ip 0 < now - c.sliding_window_seconds
  · simp [MitigationController.apply, MitigationController.applyRateLimit, hv, h]
  · simp [MitigationController.apply, MitigationController.applyRateLimit, hv, h]

/-- C7 witness: concrete RATE_LIMIT application at an empty controller. -/
theorem C7_rate_limit_window_witness :
    (⟨.rate_limit, "high", "ip_rate_exceeded", none, none⟩ :
      DetectionVerdict).action = .rate_limit ∧
    (((MitigationController.apply ⟨1, 60, []⟩ "9.9.9.9"
        ⟨.rate_limit, "high", "ip_rate_exceeded", none, none⟩ 1000).2.allowed = true ↔
      lookupD ([] : List (String × ℚ)) "9.9.9.9" 0 < 1000 - 60) ∧
    ((MitigationController.apply ⟨1, 60, []⟩ "9.9.9.9"
        ⟨.rate_limit, "high", "ip_rate_exceeded", none, none⟩ 1000).2.allowed = true →
      (MitigationController.apply ⟨1, 60, []⟩ "9.9.9.9"
        ⟨.rate_limit, "high", "ip_rate_exceeded", none, none⟩ 1000).1.rate_limited_ips =
        setA ([] : List (String × ℚ)) "9.9.9.9" 1000) ∧
    ((MitigationController.apply ⟨1, 60, []⟩ "9.9.9.9"
        ⟨.rate_limit, "high", "ip_rate_exceeded", none, none⟩ 1000).2.allowed = false →
      (MitigationController.apply ⟨1, 60, []⟩ "9.9.9.9"
        ⟨.rate_limit, "high", "ip_rate_exceeded", none, none⟩ 1000).1 = ⟨1, 60, []⟩) ∧
    (MitigationController.apply ⟨1, 60, []⟩ "9.9.9.9"
        ⟨.rate_limit, "high", "ip_rate_exceeded", none, none⟩ 1000).2.rule_matched = none ∧
    (MitigationController.apply ⟨1, 60, []⟩ "9.9.9.9"
        ⟨.rate_limit, "high", "ip_rate_exceeded", none, none⟩ 1000).2.duration_seconds = none) :=
  ⟨rfl, C7_rate_limit_window ⟨1, 60, []⟩ "9.9.9.9"
    ⟨.rate_limit, "high", "ip_rate_exceeded", none, none⟩ 1000 rfl⟩

/-! ## C9 -/

/-- C9 counterexample: the claim says a prediction failure increments an
error counter.  The middleware's `except` branch substitutes the neutral
prediction but leaves the monitor's error count untouched
(`PerformanceMonitor.record_error` is never called): starting from `0`
errors, the count after a failure is still `0`, not `1`. -/
theorem C9_no_error_counter_counterexample :
    (middlewarePredictionStep 0 (.error "model failure")).1 = neutralPrediction ∧
    (middlewarePredictionStep 0 (.error "model failure")).2 = 0 ∧
    (middlewarePredictionStep 0 (.error "model failure")).2 ≠ 1 :=
  ⟨rfl, rfl, by decide⟩

/-- C9 (amended): a model-evaluation error never propagates — the middleware
proceeds with the neutral prediction `{is_benign: true, risk_score: 0,
confidence: 1}` and the detection engine behaves exactly as with no model
(heuristics only) — but no error counter is incremented (the middleware step
leaves the error count unchanged). -/
theorem C9_prediction_failure_neutral :
    (∀ (errs : ℕ) (msg : String),
      middlewarePredictionStep errs (.error msg) = (neutralPrediction, errs)) ∧
    (∀ (e : DetectionEngine) (s : TrafficSample) (f : FeatureVector)
        (msg : String),
      e.evaluate s f (some (.error msg)) = e.evaluate s f none) := by
  refine ⟨fun _ _ => rfl, fun e s f msg => ?_⟩
  simp only [DetectionEngine.evaluate]

/-! ## C10 -/

/-- C10: the configured `request_rate_limit` never influences the RATE_LIMIT
decision (any two limits give the same `allowed`); once a request is allowed
at `now`, every further request at `t'` with `t' - now ≤ W_rl` is denied
(exactly one allowed request per window); and `get_remaining_requests`
returns either the full configured limit or `0`, never an intermediate
count. -/
theorem C10_limit_value_irrelevant :
    (∀ (n m : ℤ) (w : ℚ) (rl : List (String × ℚ)) (ip : String)
        (v : DetectionVerdict) (now : ℚ),
      v.action = .rate_limit →
      ((⟨n, w, rl⟩ : MitigationController).apply ip v now).2.allowed =
        ((⟨m, w, rl⟩ : MitigationController).apply ip v now).2.allowed) ∧
    (∀ (c : MitigationController) (ip : String) (v : DetectionVerdict)
        (now t' : ℚ),
      v.action = .rate_limit →
      (c.apply ip v now).2.allowed = true →
      t' - now ≤ c.sliding_window_seconds →
      (((c.apply ip v now).1).apply ip v t').2.allowed = false) ∧
    (∀ (c : MitigationController) (ip : String) (now : ℚ),
      c.get_remaining_requests ip now = c.request_rate_limit ∨
      c.get_remaining_requests ip now = 0) := by
  refine ⟨?_, ?_, ?_⟩
  · intro n m w rl ip v now hv
    by_cases h : lookupD rl ip 0 < now - w
    · simp [MitigationController.apply, MitigationController.applyRateLimit,
        hv, h]
    · simp [MitigationController.apply, MitigationController.applyRateLimit,
        hv, h]
  · intro c ip v now t' hv hall hwin
    by_cases h : lookupD c.rate_limited_ips ip 0 < now - c.sliding_window_seconds
    · have happ : c.apply ip v now =
          ({ c with rate_limited_ips := setA c.rate_limited_ips ip now },
            ⟨true, none, none⟩) := by
        simp [MitigationController.apply, MitigationController.applyRateLimit,
          hv, h]
      rw [happ]
      have hnl : ¬ (now < t' - c.sliding_window_seconds) := by linarith
      simp [MitigationController.apply, MitigationController.applyRateLimit,
        hv, lookupD, lookupA_setA_self, hnl]
    · exfalso
      have hfalse : (c.apply ip v now).2.allowed = false := by
        simp [MitigationController.apply, MitigationController.applyRateLimit,
          hv, h]
      rw [hall] at hfalse
      simp at hfalse
  · intro c ip now
    by_cases h : lookupD c.rate_limited_ips ip 0 < now - c.sliding_window_seconds
    · left
      simp [MitigationController.get_remaining_requests, h]
    · right
      simp [MitigationController.get_remaining_requests, h]

/-- C10 witness: two controllers differing only in `request_rate_limit`
(`5` vs `99`) take the same RATE_LIMIT decision. -/
theorem C10_limit_value_irrelevant_witness :
    (⟨.rate_limit, "high", "ip_rate_exceeded", none, none⟩ :
      DetectionVerdict).action = .rate_limit ∧
    ((⟨5, 60, []⟩ : MitigationController).apply "7.7.7.7"
        ⟨.rate_limit, "high", "ip_rate_exceeded", none, none⟩ 1000).2.allowed =
      ((⟨99, 60, []⟩ : MitigationController).apply "7.7.7.7"
        ⟨.rate_limit, "high", "ip_rate_exceeded", none, none⟩ 1000).2.allowed :=
  ⟨rfl, C10_limit_value_irrelevant.1 5 99 60 [] "7.7.7.7"
    ⟨.rate_limit, "high", "ip_rate_exceeded", none, none⟩ 1000 rfl⟩

/-! ## C3 -/

/-- C3 counterexample: the claim says `is_benign ⇔ confidence ≥ τ_conf ∧
risk_score < τ_risk`.  At `P(benign) = 1/2` under the `medium` profile
(`τ_conf = 0.75`, `τ_risk = 75`) the code yields `confidence = 1/2`,
`risk_score = 50` and `is_benign = true`, yet the claimed right-hand side is
false (`1/2 < 0.75`). -/
theorem C3_is_benign_formula_counterexample :
    modelPredict (1/2) "medium" =
      some (predictScore (1/2) ⟨75/100, 75, 1⟩ "medium") ∧
    (predictScore (1/2) ⟨75/100, 75, 1⟩ "medium").is_benign = true ∧
    ¬ ((predictScore (1/2) ⟨75/100, 75, 1⟩ "medium").confidence ≥ 75/100 ∧
      (predictScore (1/2) ⟨75/100, 75, 1⟩ "medium").risk_score < 75) :=
  ⟨rfl, by norm_num [predictScore], by norm_num [predictScore]⟩

/-- C3 (amended): `risk_score = (1 - P(benign)) * 100` and
`confidence = max(P(benign), 1 - P(benign))` hold as claimed, but the code
computes `is_attack = confidence ≥ τ_conf ∧ risk_score ≥ τ_risk` and
`is_benign = ¬is_attack`, i.e. `is_benign ⇔ ¬(confidence ≥ τ_conf ∧
risk_score ≥ τ_risk)` — not the claimed `confidence ≥ τ_conf ∧ risk_score <
τ_risk`. -/
theorem C3_scoring_semantics (p : ℚ) (level : String)
    (th : SensitivityThresholds) (out : PredictionOutput)
    (hth : SENSITIVITY_THRESHOLDS level = some th)
    (hout : modelPredict p level = some out) :
    out.risk_score = (1 - p) * 100 ∧
    out.confidence = max (1 - p) p ∧
    (out.is_benign = true ↔
      ¬ (out.confidence ≥ th.confidence_threshold ∧
        out.risk_score ≥ th.risk_score_threshold)) := by
  rw [modelPredict, hth, Option.map_some'] at hout
  injection hout with hout
  subst hout
  refine ⟨rfl, rfl, ?_⟩
  simp only [predictScore, le_max_iff, Decidable.not_and_iff_or_not,
    Bool.not_eq_true', Bool.and_eq_false_iff, decide_eq_false_iff_not, not_le,
    ge_iff_le, not_or]

/-- C3 witness: `P(benign) = 1/4` under the `medium` profile. -/
theorem C3_scoring_semantics_witness :
    SENSITIVITY_THRESHOLDS "medium" = some ⟨75/100, 75, 1⟩ ∧
    modelPredict (1/4) "medium" =
      some (predictScore (1/4) ⟨75/100, 75, 1⟩ "medium") ∧
    ((predictScore (1/4) ⟨75/100, 75, 1⟩ "medium").risk_score =
        (1 - 1/4) * 100 ∧
      (predictScore (1/4) ⟨75/100, 75, 1⟩ "medium").confidence =
        max (1 - 1/4) (1/4) ∧
      ((predictScore (1/4) ⟨75/100, 75, 1⟩ "medium").is_benign = true ↔
        ¬ ((predictScore (1/4) ⟨75/100, 75, 1⟩ "medium").confidence ≥
            (⟨75/100, 75, 1⟩ : SensitivityThresholds).confidence_threshold ∧
          (predictScore (1/4) ⟨75/100, 75, 1⟩ "medium").risk_score ≥
            (⟨75/100, 75, 1⟩ : SensitivityThresholds).risk_score_threshold))) :=
  ⟨rfl, rfl, C3_scoring_semantics (1/4) "medium" ⟨75/100, 75, 1⟩
    (predictScore (1/4) ⟨75/100, 75, 1⟩ "medium") rfl rfl⟩

/-! ## C8 -/

theorem data_genKey (f s : String) :
    (genKey f s).data = (f.data ++ [':']) ++ s.data := rfl

theorem getLast?_genKey (f s : String) (c : Char) (pre : List Char)
    (hs : s.data = pre ++ [c]) : (genKey f s).data.getLast? = some c := by
  have hform : (genKey f s).data = ((f.data ++ [':']) ++ pre) ++ [c] := by
    rw [data_genKey, hs]
    simp [List.append_assoc]
  rw [hform, List.getLast?_concat]

theorem genKey_last_ne (f f' s s' : String) (c c' : Char)
    (pre pre' : List Char) (hs : s.data = pre ++ [c])
    (hs' : s'.data = pre' ++ [c']) (hne : c ≠ c') :
    genKey f s ≠ genKey f' s' := by
  intro h
  have h1 := getLast?_genKey f s c pre hs
  have h2 := getLast?_genKey f' s' c' pre' hs'
  rw [h, h2] at h1
  exact hne (Option.some.inj h1).symm

/-- Over the three sensitivity tags the cache key determines the tag: the key
ends with `":" ++ tag` and the tags end in pairwise distinct characters. -/
theorem genKey_sens_inj (f f' s s' : String) (hs : s ∈ sensitivityLevels)
    (hs' : s' ∈ sensitivityLevels) (h : genKey f s = genKey f' s') :
    s = s' := by
  simp only [sensitivityLevels, List.mem_cons, List.not_mem_nil, or_false] at hs hs'
  rcases hs with rfl | rfl | rfl <;> rcases hs' with rfl | rfl | rfl <;>
    first
      | rfl
      | exact absurd h
          (genKey_last_ne _ _ _ _ 'w' 'm' ['l', 'o'] ['m', 'e', 'd', 'i', 'u']
            rfl rfl (by decide))
      | exact absurd h
          (genKey_last_ne _ _ _ _ 'w' 'h' ['l', 'o'] ['h', 'i', 'g']
            rfl rfl (by decide))
      | exact absurd h
          (genKey_last_ne _ _ _ _ 'm' 'w' ['m', 'e', 'd', 'i', 'u'] ['l', 'o']
            rfl rfl (by decide))
      | exact absurd h
          (genKey_last_ne _ _ _ _ 'm' 'h' ['m', 'e', 'd', 'i', 'u'] ['h', 'i', 'g']
            rfl rfl (by decide))
      | exact absurd h
          (genKey_last_ne _ _ _ _ 'h' 'w' ['h', 'i', 'g'] ['l', 'o']
            rfl rfl (by decide))
      | exact absurd h
          (genKey_last_ne _ _ _ _ 'h' 'm' ['h', 'i', 'g'] ['m', 'e', 'd', 'i', 'u']
            rfl rfl (by decide))

/-- C8 counterexample: the claim says the prediction cache never serves an
entry outside its TTL window.  The memoisation layer of
`PredictionService._cached_predict` (`functools.lru_cache`) has no TTL: an
entry computed at time `0` is still served at time `10000`, far beyond the
`ModelCache` default TTL of `300` seconds. -/
theorem C8_lru_ignores_ttl_counterexample :
    lruCachedPredict [(("h", "medium"), (42, 0))] "h" "medium" = some (42, 0) ∧
    ¬ ((10000 : ℚ) - 0 < 300) :=
  ⟨rfl, by norm_num⟩

/-- C8 (amended): at the `ModelCache` layer every hit is genuine — the entry
sits under exactly the requested key, is strictly within the TTL, and (the
key embedding the tag) was stored under the caller's sensitivity tag; the
`lru_cache` layer of `PredictionService._cached_predict` also matches the
sensitivity tag exactly (it is part of the key) but performs no TTL check. -/
theorem C8_cache_hit_guarantees :
    (∀ (c : ModelCache) (fs s : String) (now : ℚ) (p : ℕ),
      ModelCache.WF c → (c.get fs s now).1 = some p →
      ∃ e : CacheEntry, (genKey fs s, e) ∈ c.cache ∧
        now - e.timestamp < c.ttl ∧ e.prediction = p ∧
        (s ∈ sensitivityLevels → e.sens_stored ∈ sensitivityLevels →
          e.sens_stored = s)) ∧
    (∀ (st : List ((String × String) × ℕ × ℚ)) (fh s : String) (pr : ℕ × ℚ),
      lruCachedPredict st fh s = some pr → ((fh, s), pr) ∈ st) := by
  constructor
  · intro c fs s now p hwf hget
    rcases hlk : lookupA c.cache (genKey fs s) with _ | e
    · rw [ModelCache.get, hlk] at hget
      simp at hget
    · rw [ModelCache.get, hlk] at hget
      by_cases httl : now - e.timestamp < c.ttl
      · simp only [if_pos httl] at hget
        injection hget with hget
        refine ⟨e, lookupA_mem hlk, httl, hget, fun hsl hse => ?_⟩
        have hk := hwf _ (lookupA_mem hlk)
        exact (genKey_sens_inj e.feat_stored fs e.sens_stored s hse hsl hk.symm)
      · simp [if_neg httl] at hget
  · intro st fh s pr hfind
    rw [lruCachedPredict] at hfind
    rcases hf : st.find? (fun kv => decide (kv.1.1 = fh ∧ kv.1.2 = s)) with _ | kv
    · rw [hf] at hfind
      simp at hfind
    · rw [hf] at hfind
      simp only [Option.map_some'] at hfind
      injection hfind with hfind
      have hmem := List.mem_of_find?_eq_some hf
      have hp := List.find?_some hf
      simp only [decide_eq_true_iff] at hp
      obtain ⟨h1, h2⟩ := hp
      have : kv = ((fh, s), pr) := by
        obtain ⟨⟨a, b⟩, q⟩ := kv
        simp_all
      rw [this] at hmem
      exact hmem

/-- C8 witness: a well-formed single-entry `ModelCache` hit at time `100`
with TTL `300`. -/
theorem C8_cache_hit_guarantees_witness :
    ModelCache.WF ⟨10000, 300, [(genKey "F" "medium", ⟨0, 42, "medium", "F"⟩)]⟩ ∧
    ((⟨10000, 300, [(genKey "F" "medium", ⟨0, 42, "medium", "F"⟩)]⟩ :
        ModelCache).get "F" "medium" 100).1 = some 42 ∧
    (∃ e : CacheEntry,
      (genKey "F" "medium", e) ∈
        [(genKey "F" "medium", (⟨0, 42, "medium", "F"⟩ : CacheEntry))] ∧
      (100 : ℚ) - e.timestamp < 300 ∧ e.prediction = 42 ∧
      ("medium" ∈ sensitivityLevels → e.sens_stored ∈ sensitivityLevels →
        e.sens_stored = "medium")) := by
  refine ⟨?_, ?_, ?_⟩
  · intro ke hke
    simp only [List.mem_singleton] at hke
    subst hke
    rfl
  · show ((⟨10000, 300, [(genKey "F" "medium", ⟨0, 42, "medium", "F"⟩)]⟩ :
        ModelCache).get "F" "medium" 100).1 = some 42
    rw [ModelCache.get]
    have hlk : lookupA
        [(genKey "F" "medium", (⟨0, 42, "medium", "F"⟩ : CacheEntry))]
        (genKey "F" "medium") = some ⟨0, 42, "medium", "F"⟩ := by
      simp [lookupA]
    rw [hlk]
    norm_num
  · exact C8_cache_hit_guarantees.1
      ⟨10000, 300, [(genKey "F" "medium", ⟨0, 42, "medium", "F"⟩)]⟩
      "F" "medium" 100 42
      (by intro ke hke
          simp only [List.mem_singleton] at hke
          subst hke
          rfl)
      (by rw [ModelCache.get]
          have hlk : lookupA
              [(genKey "F" "medium", (⟨0, 42, "medium", "F"⟩ : CacheEntry))]
              (genKey "F" "medium") = some ⟨0, 42, "medium", "F"⟩ := by
            simp [lookupA]
          rw [hlk]
          norm_num)

/-! ## C4 -/

/-- C4 counterexample: the claim says an event with timestamp exactly
`now - W` is not retained, so a window holding only that event reports count
zero.  With `W = 60`, one event at `100` and `now = 160` the pruning
condition is the strict `t < now - W`, so the event survives and the count is
`1`, not `0`. -/
theorem C4_boundary_event_counterexample :
    ((((SlidingWindowStore.empty 60).add_event "1.2.3.4" 100).1).peek
        "1.2.3.4" 160).2.ip_event_count = 1 ∧
    ((((SlidingWindowStore.empty 60).add_event "1.2.3.4" 100).1).peek
        "1.2.3.4" 160).2.ip_event_count ≠ 0 := by
  have h1 : ((((SlidingWindowStore.empty 60).add_event "1.2.3.4" 100).1).peek
      "1.2.3.4" 160).2.ip_event_count = 1 := by
    norm_num [SlidingWindowStore.empty, SlidingWindowStore.add_event,
      SlidingWindowStore.peek, SlidingWindowStore.recordEvent,
      SlidingWindowStore.pruneAll, SlidingWindowStore.prunePerIp,
      SlidingWindowStore.snapshotFor, setA, lookupD, lookupA,
      List.dropWhile_cons]
  exact ⟨h1, by rw [h1]; decide⟩

/-- C4 (amended): the pruning comparison is the strict `t < now - W`, so an
event with timestamp exactly `now - W` IS retained (a single-event window at
the boundary reports count `1`); only events strictly older than `now - W`
are dropped (a single event strictly before the boundary reports count
`0`). -/
theorem C4_boundary_event_retained (w t t' now : ℚ) (ip : String)
    (hw : 0 < w) (ht : t = now - w) (ht' : t' < now - w) :
    ((((SlidingWindowStore.empty w).add_event ip t).1).peek ip now).2.ip_event_count
      = 1 ∧
    ((((SlidingWindowStore.empty w).add_event ip t').1).peek ip now).2.ip_event_count
      = 0 := by
  constructor
  · have hkeep : ¬ (t < t - w) := by linarith
    have hkeep2 : ¬ (t < now - w) := by rw [ht]
                                        exact lt_irrefl _
    simp [SlidingWindowStore.empty, SlidingWindowStore.add_event,
      SlidingWindowStore.peek, SlidingWindowStore.recordEvent,
      SlidingWindowStore.pruneAll, SlidingWindowStore.prunePerIp,
      SlidingWindowStore.snapshotFor, setA, lookupD, lookupA,
      List.dropWhile_cons, hkeep, hkeep2]
  · have hkeep : ¬ (t' < t' - w) := by linarith
    simp [SlidingWindowStore.empty, SlidingWindowStore.add_event,
      SlidingWindowStore.peek, SlidingWindowStore.recordEvent,
      SlidingWindowStore.pruneAll, SlidingWindowStore.prunePerIp,
      SlidingWindowStore.snapshotFor, setA, lookupD, lookupA,
      List.dropWhile_cons, hkeep, ht']

/-- C4 witness: `W = 60`, boundary event at `100`, stale event at `99`,
observed at `now = 160`. -/
theorem C4_boundary_event_retained_witness :
    (0 : ℚ) < 60 ∧ (100 : ℚ) = 160 - 60 ∧ (99 : ℚ) < 160 - 60 ∧
    (((((SlidingWindowStore.empty 60).add_event "a" 100).1).peek "a" 160).2.ip_event_count
        = 1 ∧
      ((((SlidingWindowStore.empty 60).add_event "a" 99).1).peek "a" 160).2.ip_event_count
        = 0) :=
  ⟨by norm_num, by norm_num, by norm_num,
    C4_boundary_event_retained 60 100 99 160 "a" (by norm_num) (by norm_num)
      (by norm_num)⟩

/-! ## C5 -/

theorem dropWhile_window_keep {w tNow : ℚ} {l : List ℚ}
    (h : ∀ a ∈ l, ¬ (a < tNow - w)) :
    l.dropWhile (fun x => decide (x < tNow - w)) = l :=
  dropWhile_eq_self_of_all (fun a ha => by simp [h a ha])

/-- One `add_event` step preserves the canonical single-IP store shape when
nothing falls out of the window. -/
theorem add_event_canon (w : ℚ) (ip : String) (q : List ℚ) (t : ℚ)
    (hw : 0 < w) (hq : ∀ a ∈ q, ¬ (a < t - w)) :
    ((SlidingWindowStore.canon w ip q).add_event ip t).1 =
      SlidingWindowStore.canon w ip (q ++ [t]) := by
  have hall : ∀ a ∈ q ++ [t], ¬ (a < t - w) := by
    intro a ha
    rcases List.mem_append.mp ha with h | h
    · exact hq a h
    · rw [List.mem_singleton.mp h]
      linarith
  have hrec : (SlidingWindowStore.canon w ip q).recordEvent ip t =
      ⟨w, [(ip, q ++ [t])], q ++ [t], [(ip, t)]⟩ := by
    cases q with
    | nil =>
      simp [SlidingWindowStore.canon, SlidingWindowStore.recordEvent, setA,
        lookupD, lookupA]
    | cons a r =>
      simp [SlidingWindowStore.canon, SlidingWindowStore.recordEvent, setA,
        lookupD, lookupA]
  have hkeepT : ¬ (t < t - w) := by linarith
  rw [SlidingWindowStore.add_event, hrec]
  rw [SlidingWindowStore.pruneAll]
  simp only [SlidingWindowStore.prunePerIp, dropWhile_window_keep hall,
    List.getLast?_concat]
  simp [setA, hkeepT, SlidingWindowStore.canon, List.getLast?_concat]

/-- Feeding a whole list of mutually in-window events into the canonical
store keeps it canonical. -/
theorem addEvents_canon (w : ℚ) (ip : String) (hw : 0 < w) :
    ∀ (l q : List ℚ),
      (∀ a ∈ q ++ l, ∀ b ∈ q ++ l, a - b ≤ w) →
      (SlidingWindowStore.canon w ip q).addEvents ip l =
        SlidingWindowStore.canon w ip (q ++ l) := by
  intro l
  induction l with
  | nil =>
    intro q hspan
    simp [SlidingWindowStore.addEvents]
  | cons t rest ih =>
    intro q hspan
    have hq : ∀ a ∈ q, ¬ (a < t - w) := by
      intro a ha
      have hta : t - a ≤ w :=
        hspan t (List.mem_append.mpr (Or.inr (List.mem_cons_self _ _))) a
          (List.mem_append.mpr (Or.inl ha))
      linarith
    have hstep := add_event_canon w ip q t hw hq
    have hspan' : ∀ a ∈ (q ++ [t]) ++ rest, ∀ b ∈ (q ++ [t]) ++ rest,
        a - b ≤ w := by
      intro a ha b hb
      rw [List.append_assoc, List.singleton_append] at ha hb
      exact hspan a ha b hb
    calc (SlidingWindowStore.canon w ip q).addEvents ip (t :: rest)
        = ((SlidingWindowStore.canon w ip q).add_event ip t).1.addEvents ip rest := by
          rw [SlidingWindowStore.addEvents, List.foldl_cons]
          rfl
      _ = (SlidingWindowStore.canon w ip (q ++ [t])).addEvents ip rest := by
          rw [hstep]
      _ = SlidingWindowStore.canon w ip ((q ++ [t]) ++ rest) := ih (q ++ [t]) hspan'
      _ = SlidingWindowStore.canon w ip (q ++ t :: rest) := by
          rw [List.append_assoc, List.singleton_append]

/-- C5: starting from the empty store, adding `n` events for one IP whose
timestamps all lie within one window of each other yields a snapshot with
`ip_event_count = n` and `ip_request_rate = n / W`. -/
theorem C5_add_n_events_snapshot (w : ℚ) (ip : String) (l : List ℚ)
    (hw : 0 < w) (hspan : ∀ a ∈ l, ∀ b ∈ l, a - b ≤ w) :
    (((SlidingWindowStore.empty w).addEvents ip l).snapshotFor ip).ip_event_count
      = l.length ∧
    (((SlidingWindowStore.empty w).addEvents ip l).snapshotFor ip).ip_request_rate
      = (l.length : ℚ) / w := by
  have hempty : SlidingWindowStore.empty w = SlidingWindowStore.canon w ip [] := by
    rfl
  have hfold := addEvents_canon w ip hw l []
    (by simpa using hspan)
  rw [hempty, hfold]
  simp only [List.nil_append]
  cases l with
  | nil =>
    simp [SlidingWindowStore.canon, SlidingWindowStore.snapshotFor, lookupD,
      lookupA]
  | cons a r =>
    simp [SlidingWindowStore.canon, SlidingWindowStore.snapshotFor, lookupD,
      lookupA]

/-- C5 witness: three events at `100, 110, 120` in a `60`-second window. -/
theorem C5_add_n_events_snapshot_witness :
    (0 : ℚ) < 60 ∧
    (∀ a ∈ [(100 : ℚ), 110, 120], ∀ b ∈ [(100 : ℚ), 110, 120], a - b ≤ 60) ∧
    ((((SlidingWindowStore.empty 60).addEvents "a" [100, 110, 120]).snapshotFor
        "a").ip_event_count = ([(100 : ℚ), 110, 120]).length ∧
      (((SlidingWindowStore.empty 60).addEvents "a" [100, 110, 120]).snapshotFor
        "a").ip_request_rate = (([(100 : ℚ), 110, 120]).length : ℚ) / 60) :=
  ⟨by norm_num, by norm_num, C5_add_n_events_snapshot 60 "a" [100, 110, 120]
    (by norm_num) (by norm_num)⟩

/-! ## C6 -/

/-- C6: when forwarded headers are honored and the peer is a trusted proxy,
the resolver returns (the normalized form of) the right-most chain entry
that is a valid IP outside the trusted CIDRs — entries to its right that are
invalid or trusted are skipped — and when every chain entry is a trusted
proxy it returns the left-most (then necessarily valid) entry. -/
theorem C6_resolver_chain_walk :
    (∀ (peer x : String) (trusted : List String) (peerN e : String)
        (l₁ l₂ : List String),
      normalize_ip peer = some peerN →
      is_ip_in_cidr_list peerN trusted = true →
      ¬ (x = "") →
      xffChain peerN x = l₁ ++ e :: l₂ →
      untrustedValid trusted e = true →
      (∀ y ∈ l₂, untrustedValid trusted y = false) →
      extract_client_ip peer (some x) trusted true = normalize_ip e) ∧
    (∀ (peer x : String) (trusted : List String) (peerN e₀ : String)
        (rest : List String),
      normalize_ip peer = some peerN →
      is_ip_in_cidr_list peerN trusted = true →
      ¬ (x = "") →
      xffChain peerN x = e₀ :: rest →
      (∀ y ∈ xffChain peerN x, untrustedValid trusted y = false) →
      extract_client_ip peer (some x) trusted true = normalize_ip e₀) := by
  constructor
  · intro peer x trusted peerN e l₁ l₂ hpeer htrust hx hchain he hl₂
    simp only [extract_client_ip, hpeer, htrust, Bool.not_true, Bool.or_false,
      Bool.false_or, if_neg hx, ite_false, Bool.not_false, Bool.false_eq_true,
      if_false]
    rw [hchain]
    have hrev : (l₁ ++ e :: l₂).reverse = l₂.reverse ++ e :: l₁.reverse := by
      simp [List.reverse_append]
    rw [hrev, find?_append_of_none (fun a ha => hl₂ a (List.mem_reverse.mp ha)),
      List.find?_cons_of_pos _ he]
  · intro peer x trusted peerN e₀ rest hpeer htrust hx hchain hall
    simp only [extract_client_ip, hpeer, htrust, Bool.not_true, Bool.or_false,
      Bool.false_or, if_neg hx, ite_false, Bool.not_false, Bool.false_eq_true,
      if_false]
    have hnone : (xffChain peerN x).reverse.find? (untrustedValid trusted)
        = none :=
      List.find?_eq_none.mpr (fun y hy => by
        rw [hall y (List.mem_reverse.mp hy)]
        simp)
    rw [hnone, hchain]

/-- C6 witness: the spec's concrete scenario — peer `10.0.0.1`,
`X-Forwarded-For: 8.8.8.8, 10.0.0.2`, `trusted_proxies = 10.0.0.0/8` resolves
to `8.8.8.8`. -/
theorem C6_resolver_chain_walk_witness :
    normalize_ip "10.0.0.1" = some "10.0.0.1" ∧
    is_ip_in_cidr_list "10.0.0.1" ["10.0.0.0/8"] = true ∧
    ¬ (("8.8.8.8, 10.0.0.2" : String) = "") ∧
    xffChain "10.0.0.1" "8.8.8.8, 10.0.0.2" =
      [] ++ "8.8.8.8" :: ["10.0.0.2", "10.0.0.1"] ∧
    untrustedValid ["10.0.0.0/8"] "8.8.8.8" = true ∧
    (∀ y ∈ ["10.0.0.2", "10.0.0.1"],
      untrustedValid ["10.0.0.0/8"] y = false) ∧
    extract_client_ip "10.0.0.1" (some "8.8.8.8, 10.0.0.2") ["10.0.0.0/8"] true
      = normalize_ip "8.8.8.8" ∧
    normalize_ip "8.8.8.8" = some "8.8.8.8" :=
  ⟨by decide, by decide, by decide, by decide, by decide, by decide,
    C6_resolver_chain_walk.1 "10.0.0.1" "8.8.8.8, 10.0.0.2" ["10.0.0.0/8"]
      "10.0.0.1" "8.8.8.8" [] ["10.0.0.2", "10.0.0.1"] (by decide) (by decide)
      (by decide) (by decide) (by decide) (by decide),
    by decide⟩

end DDoS
